import Mathlib

/-!
Verification of the clear-path-entity source-resolution engine.

Shallow embedding of the backend's match-classification, confidence,
naming-rule, similarity-analysis and orchestration logic, translated
from the Python sources under `src/backend/`.

Modelling conventions:
* Machine strings that undergo character-level operations (trimming, case
  folding, regex word search, substring tests) are lists of Unicode code
  points (`Str := List Nat`); the embedding covers the ASCII fragment of
  Python's case folding and of the `\w` word-character class, which is the
  fragment every pattern and constant in the source uses.  Strings that are
  only constructed, compared for equality, or looked up (state codes,
  availability verdicts, tiers, flag messages) stay Lean `String`s.
* Python floats are rationals; `round(x, 2)` is exact round-half-to-even on
  rationals.  On every value the confidence formula produces, the
  ten-thousandths digit is 25 or 75, so no tie and no float/rational
  rounding discrepancy arises.
* I/O and exceptions are embedded by explicit outcome types: a function
  that can raise returns `Except`, a caught exception is an outcome
  constructor, and an adapter's network interaction is a parameter
  describing how the fetch settled.
* `asyncio.gather(*tasks, return_exceptions=True)` is embedded as a list of
  per-task settled outcomes: each task runs to completion independently and
  an exception becomes a collected value rather than propagating.
-/

namespace ClearPath

/-- A machine string as a list of Unicode code points. -/
abbrev Str := List Nat

/-- Code points of a Lean string literal, used to inject source-code string
constants into the embedding. -/
def strCodes (s : String) : Str := s.data.map Char.toNat

/-- Decimal digits of a natural number, modelling Python `str(n)`. -/
def strOfNat (n : Nat) : Str := (Nat.toDigits 10 n).map Char.toNat

/-- Python `str.strip()` default whitespace (ASCII fragment):
tab, LF, VT, FF, CR, space. -/
def isWS (n : Nat) : Bool := n = 9 || n = 10 || n = 11 || n = 12 || n = 13 || n = 32

/-- Python `str.upper()` on one code point (ASCII fragment). -/
def toUpperN (n : Nat) : Nat := if 97 ≤ n ∧ n ≤ 122 then n - 32 else n

/-- Python `str.lower()` on one code point (ASCII fragment). -/
def toLowerN (n : Nat) : Nat := if 65 ≤ n ∧ n ≤ 90 then n + 32 else n

/-- Python `str.strip()`: drop leading and trailing whitespace. -/
def trimStr (s : Str) : Str := ((s.dropWhile isWS).reverse.dropWhile isWS).reverse

/-- Python `str.upper()` over a whole string. -/
def upperStr (s : Str) : Str := s.map toUpperN

/-- Python `str.lower()` over a whole string. -/
def lowerStr (s : Str) : Str := s.map toLowerN

/-- Python `str.upper()` on a Lean-level `String` (used where the source
upper-cases a short ASCII token such as a state code or a severity). -/
def pyUpperS (s : String) : String := String.mk (s.data.map Char.toUpper)

/-- Tests whether `w` is a leading segment of `s` (code-point-wise). -/
def startsWith : Str → Str → Bool
  | [], _ => true
  | _ :: _, [] => false
  | c :: w, d :: s => c == d && startsWith w s

/-- Python `needle in hay` substring containment. -/
def hasSub (needle : Str) : Str → Bool
  | [] => needle.isEmpty
  | d :: t => startsWith needle (d :: t) || hasSub needle t

-- ---------------------------------------------------------------------------
-- Confidence model — src/backend/adapters/base.py
-- ---------------------------------------------------------------------------

/-- Python `round` to an integer: round half to even (banker's rounding). -/
def pyRoundHalfEven (q : ℚ) : ℤ :=
  let f : ℤ := ⌊q⌋
  let r : ℚ := q - f
  if r < 1/2 then f
  else if 1/2 < r then f + 1
  else if f % 2 = 0 then f else f + 1

/-- Python `round(x, 2)`. -/
def pyRound2 (q : ℚ) : ℚ := (pyRoundHalfEven (q * 100) : ℚ) / 100

/-- Embeds `extraction_scores` dict from `_build_confidence` (base.py line 50). -/
def extraction_scores : List (String × ℚ) :=
  [("primary", 1.0), ("fallback", 0.7), ("llm", 0.4), ("failed", 0.1)]

/-- Embeds `clarity_scores` dict from `_build_confidence` (base.py line 51). -/
def clarity_scores : List (String × ℚ) :=
  [("clear", 1.0), ("inferred", 0.7), ("ambiguous", 0.4)]

/-- Embeds `BaseStateAdapter._build_confidence` (base.py lines 45-58).
`dict.get(key, 0.4)` is association-list lookup with default. -/
def _build_confidence (extraction_method result_clarity : String) : ℚ :=
  let extraction := (extraction_scores.lookup extraction_method).getD 0.4
  let clarity := (clarity_scores.lookup result_clarity).getD 0.4
  let source : ℚ := 0.85
  pyRound2 (extraction * 0.40 + source * 0.25 + clarity * 0.25 + 1.0 * 0.10)

/-- Modelled from the spec §4.4: `extraction_weight`, unknown tiers
defaulting to 0.4 (for the refinement side of claim C2). -/
def extraction_weight (tier : String) : ℚ :=
  if tier = "primary" then 1.0
  else if tier = "fallback" then 0.7
  else if tier = "llm" then 0.4
  else if tier = "failed" then 0.1
  else 0.4

/-- Modelled from the spec §4.4: `clarity_weight`, unknown clarities
defaulting to 0.4 (for the refinement side of claim C2). -/
def clarity_weight (clarity : String) : ℚ :=
  if clarity = "clear" then 1.0
  else if clarity = "inferred" then 0.7
  else if clarity = "ambiguous" then 0.4
  else 0.4

/-- Modelled from the spec §4.4: the confidence formula, rounded to
2 decimals (for the refinement side of claim C2). -/
def confidence_spec (tier clarity : String) : ℚ :=
  pyRound2 (extraction_weight tier * 0.40 + 0.85 * 0.25 + clarity_weight clarity * 0.25 + 1.0 * 0.10)

/-- The twelve values `_build_confidence` can return (4 extraction weights,
counting the 0.4 default with "llm", times 3 clarity weights, counting the
0.4 default with "ambiguous"). -/
def confidence_range : List ℚ :=
  [0.96, 0.89, 0.81, 0.84, 0.77, 0.69, 0.72, 0.65, 0.57, 0.6, 0.53, 0.45]

-- ---------------------------------------------------------------------------
-- Data model — src/backend/adapters/base.py
-- ---------------------------------------------------------------------------

/-- Embeds `EntityMatch` dataclass (base.py lines 5-12). -/
structure EntityMatch where
  name : Str
  entity_type : Str := []
  status : Str := strCodes "unknown"
  file_number : Str := []
  registered : Str := []
deriving DecidableEq

/-- Embeds `AdapterResult` dataclass (base.py lines 15-33).  `raw_matches` keeps
the `EntityMatch` values themselves (the source stores `m.__dict__`, a
field-for-field copy). -/
structure AdapterResult where
  state_code : String
  state_name : String
  availability : String
  confidence : ℚ
  raw_matches : List EntityMatch := []
  similar_names : List Str := []
  flags : List String := []
  notes : Str := []
  extraction_method : String := "primary"
  source_type : String := "web_form"
deriving DecidableEq

-- ---------------------------------------------------------------------------
-- LLM client — src/backend/llm/client.py
-- ---------------------------------------------------------------------------

namespace llm

/-- The dict `interpret_state_page` / `interpret_state_page_sync` returns,
with the caller-side `.get(key, default)` defaults folded into field
defaults.  Both wrappers are total: malformed model output yields the
fixed degraded dict (client.py lines 53-61 and 89-102). -/
structure InterpResult where
  availability : String := "unknown"
  similar_names : List Str := []
  clarity : String := "ambiguous"
  notes : Str := strCodes "Result interpreted via LLM fallback."
deriving DecidableEq

/-- Embeds `SimilarityAssessment` dict returned by `analyze_similarity`. -/
structure Assessment where
  risk_level : String
  conflicting_names : List Str
  explanation : String
  recommendation : String
deriving DecidableEq

/-- How the Sonnet `messages.create` call settled: the call raised
(network failure, timeout, API error), or it returned text that parsed
into an assessment dict (`some`) or was malformed JSON (`none`). -/
inductive ModelReply where
  | netFail (err : String)
  | reply (parsed : Option Assessment)
deriving DecidableEq

/-- Embeds `analyze_similarity` (client.py lines 105-150).  The `messages.create`
call sits OUTSIDE the try block, so a network failure propagates to the
caller (`Except.error`); only JSON parsing failures are caught and mapped
to the degraded assessment whose `conflicting_names` is the passed-in
similar-name list. -/
def analyze_similarity (similar_names : List Str) (outcome : ModelReply) :
    Except String Assessment :=
  match outcome with
  | .netFail e => .error e
  | .reply (some d) => .ok d
  | .reply none => .ok
      { risk_level := "unknown"
        conflicting_names := similar_names
        explanation := "Could not parse similarity analysis."
        recommendation := "Review similar names manually." }

end llm

-- ---------------------------------------------------------------------------
-- Naming rules engine — src/backend/rules/engine.py
-- ---------------------------------------------------------------------------

namespace rules

/-- Embeds `NamingRule` dataclass (engine.py lines 10-15).  `pattern` holds the
alternatives of the case-insensitive regex: every registry pattern is an
alternation of word-boundary-delimited lowercase literals, each kept here
as its code-point list (a literal `.` inside `l.l.c` stays a plain code
point — the source escapes it as `\.`). -/
structure NamingRule where
  pattern : List Str
  message : String
  severity : String
  entity_types : Option (List String) := none

/-- Python regex `\w` word character (ASCII fragment): `[A-Za-z0-9_]`. -/
def isWordChar (n : Nat) : Bool :=
  (48 ≤ n && n ≤ 57) || (65 ≤ n && n ≤ 90) || (97 ≤ n && n ≤ 122) || n == 95

/-- The literal `w` matches at the head of `s` and is followed by a word
boundary (end of string or a non-word character). -/
def litMatchAt : Str → Str → Bool
  | [], [] => true
  | [], d :: _ => !isWordChar d
  | _ :: _, [] => false
  | c :: w, d :: s => c == d && litMatchAt w s

/-- Scan `s` for an occurrence of `w` preceded by a word boundary
(`prevIsWord` tells whether the previous character was a word character)
and followed by one. -/
def wbSearchFrom (w : Str) (prevIsWord : Bool) : Str → Bool
  | [] => !prevIsWord && litMatchAt w []
  | d :: s => (!prevIsWord && litMatchAt w (d :: s)) || wbSearchFrom w (isWordChar d) s

/-- Embeds the `re.search(pattern, name, re.IGNORECASE)` truthiness for a pattern that
is an alternation of `\b`-delimited lowercase literals: some alternative
occurs in the lower-cased name with word boundaries on both sides. -/
def reSearchCI (alts : List Str) (name : Str) : Bool :=
  alts.any (fun w => wbSearchFrom w false (lowerStr name))

/-- The `RULES["DE"]` list (engine.py lines 23-62), in declaration order. -/
def DE_RULES : List NamingRule :=
  [ { pattern := [strCodes "bank", strCodes "banking", strCodes "bankers"]
      message := "Delaware requires approval from the Office of the State Bank Commissioner to use 'bank' or 'banking'."
      severity := "warning" }
  , { pattern := [strCodes "trust"]
      message := "Delaware restricts use of 'trust' in entity names. Approval may be required."
      severity := "warning" }
  , { pattern := [strCodes "insurance", strCodes "assurance"]
      message := "Delaware restricts use of 'insurance' — may require Dept. of Insurance approval."
      severity := "warning" }
  , { pattern := [strCodes "university", strCodes "college", strCodes "academy"]
      message := "Using 'university', 'college', or 'academy' may require educational licensing."
      severity := "warning" }
  , { pattern := [strCodes "cooperative", strCodes "co-op", strCodes "coop"]
      message := "Delaware cooperative entities have specific formation requirements."
      severity := "info" }
  , { pattern := [strCodes "inc", strCodes "corp", strCodes "incorporated", strCodes "corporation"]
      message := "Suffix 'Inc.' / 'Corp.' is appropriate for Corporations, not LLCs."
      severity := "warning"
      entity_types := some ["LLC", "LP", "LLP"] }
  , { pattern := [strCodes "llc", strCodes "l.l.c"]
      message := "Suffix 'LLC' is appropriate for LLCs, not Corporations."
      severity := "warning"
      entity_types := some ["Corporation", "LP", "LLP"] }
  ]

/-- The `RULES` registry (engine.py lines 22-64): Delaware only. -/
def RULES : List (String × List NamingRule) := [("DE", DE_RULES)]

/-- Embeds `STATE_RULES_SUMMARIES` (engine.py lines 67-74). -/
def STATE_RULES_SUMMARIES : List (String × String) :=
  [("DE", "Delaware prohibits or restricts: 'bank', 'banking', 'trust', 'insurance', 'university', 'college'. LLCs must include 'LLC' or 'Limited Liability Company' in their name. Corporations must include 'Inc.', 'Corp.', 'Incorporated', or 'Corporation'. Names must be distinguishable from all existing Delaware entities.")]

/-- The skip test in `apply_rules` (engine.py line 87):
`rule.entity_types and entity_type not in rule.entity_types`
(an empty list is falsy in Python, hence the emptiness check). -/
def ruleSkipped (rule : NamingRule) (entity_type : String) : Bool :=
  match rule.entity_types with
  | none => false
  | some l => !l.isEmpty && !l.contains entity_type

/-- The flag string `f"[{rule.severity.upper()}] {rule.message}"`. -/
def flagOf (rule : NamingRule) : String :=
  "[" ++ pyUpperS rule.severity ++ "] " ++ rule.message

/-- Embeds `apply_rules` (engine.py lines 77-92). -/
def apply_rules (name : Str) (entity_type state_code : String) : List String :=
  let state_rules := (RULES.lookup (pyUpperS state_code)).getD []
  state_rules.foldl
    (fun flags rule =>
      if ruleSkipped rule entity_type then flags
      else if reSearchCI rule.pattern name then flags ++ [flagOf rule]
      else flags)
    []

/-- Embeds `get_rules_summary` (engine.py lines 95-96). -/
def get_rules_summary (state_code : String) : String :=
  (STATE_RULES_SUMMARIES.lookup (pyUpperS state_code)).getD
    "No specific rules encoded for this state."

end rules

-- ---------------------------------------------------------------------------
-- California adapter — src/backend/adapters/states/ca.py
-- ---------------------------------------------------------------------------

namespace CA

/-- Records `TIMEOUT = 20.0` (ca.py line 23): the httpx per-request timeout, the
only time bound the California adapter applies. -/
def TIMEOUT : ℚ := 20.0

/-- ca.py's `search` wraps no `asyncio.wait_for`: unlike the Playwright
adapters there is no overall wall-clock budget around the search. -/
def overall_search_budget : Option ℕ := none

/-- Embeds `_INACTIVE` status set (ca.py lines 26-29). -/
def _INACTIVE : List Str :=
  [strCodes "dissolved", strCodes "cancelled", strCodes "canceled", strCodes "forfeited",
   strCodes "sos canceled", strCodes "sos cancelled", strCodes "void"]

/-- Embeds `CaliforniaAdapter._classify` (ca.py lines 92-135). -/
def _classify («matches» : List EntityMatch) (search_name : Str) : AdapterResult :=
  if «matches».isEmpty then
    { state_code := "CA", state_name := "California"
      availability := "available"
      confidence := _build_confidence "primary" "clear"
      notes := strCodes "No matching entities found in California registry."
      source_type := "api" }
  else
    let name_upper := upperStr (trimStr search_name)
    let exact := «matches».filter (fun m => upperStr (trimStr m.name) = name_upper)
    let similar := «matches».filter (fun m => m ∉ exact)
    match exact with
    | e0 :: _ =>
      let all_inactive := exact.all (fun m => lowerStr m.status ∈ _INACTIVE)
      { state_code := "CA", state_name := "California"
        availability := "taken"
        confidence := _build_confidence "primary" "clear"
        raw_matches := exact
        similar_names := similar.map (·.name)
        notes :=
          strCodes "Exact match found: '" ++ e0.name ++ strCodes "' (status: " ++
            e0.status ++ strCodes ")." ++
          (if all_inactive then
            strCodes " All exact matches are inactive — name may be available, but verify with an attorney."
          else [])
        source_type := "api" }
    | [] =>
      { state_code := "CA", state_name := "California"
        availability := "similar"
        confidence := _build_confidence "primary" "inferred"
        raw_matches := «matches»
        similar_names := «matches».map (·.name)
        notes := strOfNat «matches».length ++
          strCodes " similar California entity name(s) found. No exact match."
        source_type := "api" }

/-- How the California HTTP fetch settled (ca.py lines 49-88):
`httpx.TimeoutException`, `httpx.HTTPStatusError` with a status code, any
other exception (type name and text), or a response whose parsed rows are
`matches` (`_parse_results` is total and returns `[]` on any unrecognized
shape, ca.py lines 151-203). -/
inductive FetchOutcome where
  | timeout
  | httpStatus (status : Nat)
  | exc (ty msg : Str)
  | ok («matches» : List EntityMatch)
deriving DecidableEq

/-- Embeds `CaliforniaAdapter.search` (ca.py lines 36-90), over whether
`settings.ca_sos_api_key` is configured and how the fetch settled.
It is a total function: every failure mode yields an error result. -/
def search (api_key_configured : Bool) (outcome : FetchOutcome) (name : Str) : AdapterResult :=
  if !api_key_configured then
    { state_code := "CA", state_name := "California"
      availability := "error", confidence := 0.1
      notes := strCodes "CA SOS API key not configured. Set the CA_SOS_API_KEY environment variable." }
  else
    match outcome with
    | .timeout =>
      { state_code := "CA", state_name := "California"
        availability := "error", confidence := 0.1
        notes := strCodes "CA SOS API request timed out." }
    | .httpStatus status =>
      { state_code := "CA", state_name := "California"
        availability := "error", confidence := 0.1
        notes :=
          if status = 401 then strCodes "CA SOS API key is invalid or expired."
          else if status = 429 then strCodes "CA SOS API rate limit exceeded. Try again shortly."
          else strCodes "CA SOS API returned HTTP " ++ strOfNat status ++ strCodes "." }
    | .exc ty msg =>
      { state_code := "CA", state_name := "California"
        availability := "error", confidence := 0.1
        notes := strCodes "CA SOS API error: " ++ ty ++ strCodes ": " ++ msg }
    | .ok «matches» => _classify «matches» name

end CA

-- ---------------------------------------------------------------------------
-- Delaware adapter — src/backend/adapters/states/de.py
-- ---------------------------------------------------------------------------

namespace DE

/-- Records the `timeout=90` passed to `asyncio.wait_for` (de.py line 34). -/
def search_timeout_seconds : ℕ := 90

/-- Embeds `NO_RESULTS_TEXT` (de.py line 19). -/
def NO_RESULTS_TEXT : List Str :=
  [strCodes "no entity", strCodes "no records", strCodes "not found",
   strCodes "0 records", strCodes "no results"]

/-- The rendered Delaware results page as `_parse_results` observes it
(de.py lines 118-139): the body text, whether `#tblResults` is present,
and the rows `_parse_table_rows` extracted from it. -/
structure Page where
  body_text : Str
  has_results_table : Bool
  rows : List EntityMatch
deriving DecidableEq

/-- Embeds `DelawareAdapter._llm_fallback` (de.py lines 199-218), over the dict
the (total) sync LLM wrapper returned. -/
def _llm_fallback (interp : llm.InterpResult) : AdapterResult :=
  { state_code := "DE", state_name := "Delaware"
    availability := interp.availability
    confidence := _build_confidence "llm" interp.clarity
    similar_names := interp.similar_names
    notes := interp.notes
    extraction_method := "llm" }

/-- Embeds `DelawareAdapter._classify` (de.py lines 173-197).  Note the Delaware
variant upper-cases before stripping and defines no inactive-status set. -/
def _classify («matches» : List EntityMatch) (search_name : Str) : AdapterResult :=
  let name_upper := trimStr (upperStr search_name)
  let exact := «matches».filter (fun m => trimStr (upperStr m.name) = name_upper)
  match exact with
  | e0 :: _ =>
    { state_code := "DE", state_name := "Delaware"
      availability := "taken"
      confidence := _build_confidence "primary" "clear"
      raw_matches := exact
      similar_names := («matches».filter (fun m => m ∉ exact)).map (·.name)
      notes := strCodes "Exact match found: '" ++ e0.name ++ strCodes "'" }
  | [] =>
    let similar := «matches».map (·.name)
    { state_code := "DE", state_name := "Delaware"
      availability := "similar"
      confidence := _build_confidence "primary" "inferred"
      raw_matches := «matches»
      similar_names := similar
      notes := strOfNat similar.length ++
        strCodes " similar name(s) found. No exact match. Review for deceptive similarity." }

/-- Embeds `DelawareAdapter._parse_results` (de.py lines 118-139). -/
def _parse_results (p : Page) (name : Str) (interp : llm.InterpResult) : AdapterResult :=
  let page_text := lowerStr p.body_text
  if !p.has_results_table || NO_RESULTS_TEXT.any (fun phrase => hasSub phrase page_text) then
    { state_code := "DE", state_name := "Delaware"
      availability := "available"
      confidence := _build_confidence "primary" "clear"
      notes := strCodes "No matching entities found in Delaware registry."
      extraction_method := "primary" }
  else if p.rows.isEmpty then _llm_fallback interp
  else _classify p.rows name

/-- How the Delaware search settled (de.py lines 28-116):
the 90-second `asyncio.wait_for` expired; some other exception reached the
outer handler; the name input never appeared (`PWTimeout` in
`_fill_and_extract`, de.py lines 96-106); or the form was submitted and a
page reached `_parse_results` (with the LLM interpretation the fallback
would use). -/
inductive SearchOutcome where
  | timeout
  | exc (ty msg : Str)
  | inputMissing
  | loaded (p : Page) (interp : llm.InterpResult)
deriving DecidableEq

/-- Embeds `DelawareAdapter.search` (de.py lines 28-51) plus the synchronous body
it awaits.  Total: every failure mode yields an error result. -/
def search (o : SearchOutcome) (name : Str) : AdapterResult :=
  match o with
  | .timeout =>
    { state_code := "DE", state_name := "Delaware"
      availability := "error", confidence := 0.1
      notes := strCodes "Search timed out after 90 seconds." }
  | .exc ty msg =>
    { state_code := "DE", state_name := "Delaware"
      availability := "error", confidence := 0.1
      notes := strCodes "Unexpected error: " ++ ty ++ strCodes ": " ++ msg }
  | .inputMissing =>
    { state_code := "DE", state_name := "Delaware"
      availability := "error", confidence := 0.1
      notes := strCodes "Name input field not found — Delaware site structure may have changed."
      extraction_method := "failed" }
  | .loaded p interp => _parse_results p name interp

end DE

-- ---------------------------------------------------------------------------
-- Florida adapter — src/backend/adapters/states/fl.py
-- ---------------------------------------------------------------------------

namespace FL

/-- Records the `timeout=90` passed to `asyncio.wait_for` (fl.py line 52). -/
def search_timeout_seconds : ℕ := 90

/-- Embeds `_INACTIVE_STATUSES` (fl.py lines 26-29). -/
def _INACTIVE_STATUSES : List Str :=
  [strCodes "inact", strCodes "inactive", strCodes "cross rf", strCodes "dissolved",
   strCodes "revoked", strCodes "cancelled", strCodes "canceled", strCodes "merged",
   strCodes "converted", strCodes "withdrawn"]

/-- Embeds `NO_RESULTS_TEXT` (fl.py lines 31-34). -/
def NO_RESULTS_TEXT : List Str :=
  [strCodes "no filings", strCodes "no matching", strCodes "no records",
   strCodes "no results", strCodes "0 results", strCodes "not found"]

/-- The rendered Sunbiz page as `_parse_results` observes it (fl.py lines
155-184): body text, whether `page.locator("table").count() > 0`, and the
rows `_parse_table` extracted. -/
structure Page where
  body_text : Str
  table_exists : Bool
  rows : List EntityMatch
deriving DecidableEq

/-- Embeds `FloridaAdapter._llm_fallback` (fl.py lines 264-281). -/
def _llm_fallback (interp : llm.InterpResult) : AdapterResult :=
  { state_code := "FL", state_name := "Florida"
    availability := interp.availability
    confidence := _build_confidence "llm" interp.clarity
    similar_names := interp.similar_names
    notes := interp.notes
    extraction_method := "llm" }

/-- Embeds `FloridaAdapter._classify` (fl.py lines 231-262). -/
def _classify («matches» : List EntityMatch) (search_name : Str) : AdapterResult :=
  let name_upper := upperStr (trimStr search_name)
  let exact := «matches».filter (fun m => upperStr (trimStr m.name) = name_upper)
  let similar := «matches».filter (fun m => m ∉ exact)
  match exact with
  | e0 :: _ =>
    let active_exact := exact.filter (fun m => lowerStr m.status ∉ _INACTIVE_STATUSES)
    { state_code := "FL", state_name := "Florida"
      availability := "taken"
      confidence := _build_confidence "primary" "clear"
      raw_matches := exact
      similar_names := similar.map (·.name)
      notes :=
        strCodes "Exact match found: '" ++ e0.name ++ strCodes "' (status: " ++
          e0.status ++ strCodes ")." ++
        (if active_exact.isEmpty then
          strCodes " All exact matches are inactive — name may be available, but verify with an attorney."
        else []) }
  | [] =>
    { state_code := "FL", state_name := "Florida"
      availability := "similar"
      confidence := _build_confidence "primary" "inferred"
      raw_matches := «matches»
      similar_names := «matches».map (·.name)
      notes := strOfNat «matches».length ++
        strCodes " similar name(s) found in Florida registry. No exact match." }

/-- Embeds `FloridaAdapter._parse_results` (fl.py lines 155-184): a negative
phrase, or a rendered table with no parsed rows, short-circuits to
`available`; a page with no table at all and no rows escalates to the
LLM fallback instead. -/
def _parse_results (p : Page) (name : Str) (interp : llm.InterpResult) : AdapterResult :=
  let page_text := lowerStr p.body_text
  if NO_RESULTS_TEXT.any (fun phrase => hasSub phrase page_text) then
    { state_code := "FL", state_name := "Florida"
      availability := "available"
      confidence := _build_confidence "primary" "clear"
      notes := strCodes "No matching entities found in Florida registry." }
  else if p.rows.isEmpty then
    if p.table_exists then
      { state_code := "FL", state_name := "Florida"
        availability := "available"
        confidence := _build_confidence "primary" "clear"
        notes := strCodes "No matching entities found in Florida registry." }
    else _llm_fallback interp
  else _classify p.rows name

/-- How the Florida search settled (fl.py lines 47-153). -/
inductive SearchOutcome where
  | timeout
  | exc (ty msg : Str)
  | formNotFound
  | submitNotFound
  | loaded (p : Page) (interp : llm.InterpResult)
deriving DecidableEq

/-- Embeds `FloridaAdapter.search` (fl.py lines 47-69) plus the awaited body.
Total: every failure mode yields an error result. -/
def search (o : SearchOutcome) (name : Str) : AdapterResult :=
  match o with
  | .timeout =>
    { state_code := "FL", state_name := "Florida"
      availability := "error", confidence := 0.1
      notes := strCodes "FL search timed out after 90 seconds." }
  | .exc ty msg =>
    { state_code := "FL", state_name := "Florida"
      availability := "error", confidence := 0.1
      notes := strCodes "Unexpected error: " ++ ty ++ strCodes ": " ++ msg }
  | .formNotFound =>
    { state_code := "FL", state_name := "Florida"
      availability := "error", confidence := 0.1
      notes := strCodes "FL search form not found — Sunbiz site structure may have changed."
      extraction_method := "failed" }
  | .submitNotFound =>
    { state_code := "FL", state_name := "Florida"
      availability := "error", confidence := 0.1
      notes := strCodes "FL search submit button not found."
      extraction_method := "failed" }
  | .loaded p interp => _parse_results p name interp

end FL

/-- Records the `timeout=90` passed to `asyncio.wait_for` in the New Jersey adapter
(nj.py line 57). -/
def NJ.search_timeout_seconds : ℕ := 90

/-- Records the `timeout=90` passed to `asyncio.wait_for` in the New York adapter
(ny.py line 47). -/
def NY.search_timeout_seconds : ℕ := 90

/-- Records the `timeout=90` passed to `asyncio.wait_for` in the Washington adapter
(wa.py line 63). -/
def WA.search_timeout_seconds : ℕ := 90

-- ---------------------------------------------------------------------------
-- Orchestrator — src/backend/agents/orchestrator.py, src/backend/main.py
-- ---------------------------------------------------------------------------

namespace orch

/-- A `models.StateResult` row as `_run_state` persists it
(orchestrator.py lines 74-87). -/
structure StateResultRow where
  job_id : String
  state_code : String
  state_name : String
  availability : String
  confidence : ℚ
  similar_names : List Str
  flags : List String
  raw_matches : List EntityMatch
  notes : Str
deriving DecidableEq

/-- Embeds `_run_state` (orchestrator.py lines 48-87) after the adapter's search
produced `result`: apply naming rules, run the similarity analysis when the
result is `similar` with non-empty `similar_names` (the surrounding
try/except turns an analyzer exception into a failure flag), and build the
row that is persisted.  Total: persistence always happens. -/
def _run_state (job_id : String) (name : Str) (entity_type adapter_state_code : String)
    (result : AdapterResult) (llm_outcome : llm.ModelReply) : StateResultRow :=
  let flags := rules.apply_rules name entity_type adapter_state_code
  let flags :=
    if result.availability = "similar" ∧ result.similar_names ≠ [] then
      match llm.analyze_similarity (result.similar_names.take 10) llm_outcome with
      | .ok similarity =>
        flags ++ ["[SIMILARITY] Risk: " ++ pyUpperS similarity.risk_level ++ ". " ++
          similarity.explanation ++ " " ++ similarity.recommendation]
      | .error e => flags ++ ["[SIMILARITY] Analysis failed: " ++ e]
    else flags
  { job_id := job_id
    state_code := result.state_code
    state_name := result.state_name
    availability := result.availability
    confidence := result.confidence
    similar_names := result.similar_names
    flags := flags ++ result.flags
    raw_matches := result.raw_matches
    notes := result.notes }

/-- How one fanned-out task settled: it ran to completion and persisted its
row, or it raised and `asyncio.gather(..., return_exceptions=True)`
collected the exception value instead of propagating or cancelling
siblings. -/
inductive TaskOutcome where
  | ok (row : StateResultRow)
  | raised (err : String)
deriving DecidableEq

/-- The rows present in the store after all tasks settled: each `ok` task
persisted its own row inside `_run_state`; a raised task persisted
nothing and disturbed nothing else. -/
def persisted_rows (tasks : List TaskOutcome) : List StateResultRow :=
  tasks.filterMap (fun t => match t with | .ok r => some r | .raised _ => none)

/-- Embeds `run_search` (orchestrator.py lines 31-45): `await asyncio.gather(*tasks,
return_exceptions=True)` waits for every task and returns normally whatever
individual tasks did; `Except.error` (a raise out of `run_search`) can only
arise from the orchestration code outside the tasks. -/
def run_search (tasks : List TaskOutcome) : Except String (List StateResultRow) :=
  Except.ok (persisted_rows tasks)

/-- The `Job.status` vocabulary (main.py). -/
inductive JobStatus where
  | pending
  | running
  | complete
  | error
deriving DecidableEq

/-- The status `_run_and_signal` (main.py lines 84-114) leaves the job in,
as a function of how `await run_search(...)` settled: the except-branch
writes `error`, the fall-through writes `complete`. -/
def run_and_signal_status (run_outcome : Except String (List StateResultRow)) : JobStatus :=
  match run_outcome with
  | .ok _ => JobStatus.complete
  | .error _ => JobStatus.error

end orch

-- ---------------------------------------------------------------------------
-- Helper lemmas
-- ---------------------------------------------------------------------------

lemma isWS_toUpperN (n : Nat) : isWS (toUpperN n) = isWS n := by
  unfold toUpperN
  split
  · next h =>
      have h1 : isWS (n - 32) = false := by
        unfold isWS
        simp only [Bool.or_eq_false_iff, decide_eq_false_iff_not]
        omega
      have h2 : isWS n = false := by
        unfold isWS
        simp only [Bool.or_eq_false_iff, decide_eq_false_iff_not]
        omega
      rw [h1, h2]
  · rfl

/-- Stripping commutes with upper-casing, so the California normalization
`name.strip().upper()` and the Delaware normalization `name.upper().strip()`
agree. -/
lemma trim_upper_comm (s : Str) : trimStr (upperStr s) = upperStr (trimStr s) := by
  have hp : isWS ∘ toUpperN = isWS := funext isWS_toUpperN
  unfold trimStr upperStr
  rw [List.dropWhile_map, hp, ← List.map_reverse, List.dropWhile_map, hp, ← List.map_reverse]

lemma pyRound2_eq_down (q : ℚ) (f : ℤ) (h1 : (f : ℚ) ≤ q * 100) (h2 : q * 100 - f < 1/2) :
    pyRound2 q = (f : ℚ) / 100 := by
  have hfl : ⌊q * 100⌋ = f := by
    rw [Int.floor_eq_iff]
    refine ⟨h1, ?_⟩
    linarith
  simp only [pyRound2, pyRoundHalfEven, hfl]
  rw [if_pos h2]

lemma pyRound2_eq_up (q : ℚ) (f : ℤ) (h1 : q * 100 < f + 1) (h2 : 1/2 < q * 100 - f) :
    pyRound2 q = ((f : ℚ) + 1) / 100 := by
  have hfl : ⌊q * 100⌋ = f := by
    rw [Int.floor_eq_iff]
    constructor
    · linarith
    · linarith
  simp only [pyRound2, pyRoundHalfEven, hfl]
  rw [if_neg (by linarith), if_pos h2]
  push_cast
  ring

lemma lookup_extraction (t : String) :
    (extraction_scores.lookup t).getD 0.4 = extraction_weight t := by
  unfold extraction_scores extraction_weight
  simp only [List.lookup]
  cases h1 : t == "primary" <;> cases h2 : t == "fallback" <;>
    cases h3 : t == "llm" <;> cases h4 : t == "failed" <;>
    simp_all [beq_iff_eq]

lemma lookup_clarity (c : String) :
    (clarity_scores.lookup c).getD 0.4 = clarity_weight c := by
  unfold clarity_scores clarity_weight
  simp only [List.lookup]
  cases h1 : c == "clear" <;> cases h2 : c == "inferred" <;>
    cases h3 : c == "ambiguous" <;>
    simp_all [beq_iff_eq]

lemma build_confidence_eq_spec (t c : String) :
    _build_confidence t c = confidence_spec t c := by
  unfold _build_confidence confidence_spec
  rw [lookup_extraction, lookup_clarity]

lemma conf_val_1 : pyRound2 (1.0 * 0.40 + 0.85 * 0.25 + 1.0 * 0.25 + 1.0 * 0.10) = 0.96 := by
  rw [show (0.96 : ℚ) = ((96 : ℤ) : ℚ) / 100 by norm_num]
  exact pyRound2_eq_down _ 96 (by norm_num) (by norm_num)

lemma conf_val_2 : pyRound2 (1.0 * 0.40 + 0.85 * 0.25 + 0.7 * 0.25 + 1.0 * 0.10) = 0.89 := by
  rw [show (0.89 : ℚ) = (((88 : ℤ) : ℚ) + 1) / 100 by norm_num]
  exact pyRound2_eq_up _ 88 (by norm_num) (by norm_num)

lemma conf_val_3 : pyRound2 (1.0 * 0.40 + 0.85 * 0.25 + 0.4 * 0.25 + 1.0 * 0.10) = 0.81 := by
  rw [show (0.81 : ℚ) = ((81 : ℤ) : ℚ) / 100 by norm_num]
  exact pyRound2_eq_down _ 81 (by norm_num) (by norm_num)

lemma conf_val_4 : pyRound2 (0.7 * 0.40 + 0.85 * 0.25 + 1.0 * 0.25 + 1.0 * 0.10) = 0.84 := by
  rw [show (0.84 : ℚ) = ((84 : ℤ) : ℚ) / 100 by norm_num]
  exact pyRound2_eq_down _ 84 (by norm_num) (by norm_num)

lemma conf_val_5 : pyRound2 (0.7 * 0.40 + 0.85 * 0.25 + 0.7 * 0.25 + 1.0 * 0.10) = 0.77 := by
  rw [show (0.77 : ℚ) = (((76 : ℤ) : ℚ) + 1) / 100 by norm_num]
  exact pyRound2_eq_up _ 76 (by norm_num) (by norm_num)

lemma conf_val_6 : pyRound2 (0.7 * 0.40 + 0.85 * 0.25 + 0.4 * 0.25 + 1.0 * 0.10) = 0.69 := by
  rw [show (0.69 : ℚ) = ((69 : ℤ) : ℚ) / 100 by norm_num]
  exact pyRound2_eq_down _ 69 (by norm_num) (by norm_num)

lemma conf_val_7 : pyRound2 (0.4 * 0.40 + 0.85 * 0.25 + 1.0 * 0.25 + 1.0 * 0.10) = 0.72 := by
  rw [show (0.72 : ℚ) = ((72 : ℤ) : ℚ) / 100 by norm_num]
  exact pyRound2_eq_down _ 72 (by norm_num) (by norm_num)

lemma conf_val_8 : pyRound2 (0.4 * 0.40 + 0.85 * 0.25 + 0.7 * 0.25 + 1.0 * 0.10) = 0.65 := by
  rw [show (0.65 : ℚ) = (((64 : ℤ) : ℚ) + 1) / 100 by norm_num]
  exact pyRound2_eq_up _ 64 (by norm_num) (by norm_num)

lemma conf_val_9 : pyRound2 (0.4 * 0.40 + 0.85 * 0.25 + 0.4 * 0.25 + 1.0 * 0.10) = 0.57 := by
  rw [show (0.57 : ℚ) = ((57 : ℤ) : ℚ) / 100 by norm_num]
  exact pyRound2_eq_down _ 57 (by norm_num) (by norm_num)

lemma conf_val_10 : pyRound2 (0.1 * 0.40 + 0.85 * 0.25 + 1.0 * 0.25 + 1.0 * 0.10) = 0.6 := by
  rw [show (0.6 : ℚ) = ((60 : ℤ) : ℚ) / 100 by norm_num]
  exact pyRound2_eq_down _ 60 (by norm_num) (by norm_num)

lemma conf_val_11 : pyRound2 (0.1 * 0.40 + 0.85 * 0.25 + 0.7 * 0.25 + 1.0 * 0.10) = 0.53 := by
  rw [show (0.53 : ℚ) = (((52 : ℤ) : ℚ) + 1) / 100 by norm_num]
  exact pyRound2_eq_up _ 52 (by norm_num) (by norm_num)

lemma conf_val_12 : pyRound2 (0.1 * 0.40 + 0.85 * 0.25 + 0.4 * 0.25 + 1.0 * 0.10) = 0.45 := by
  rw [show (0.45 : ℚ) = ((45 : ℤ) : ℚ) / 100 by norm_num]
  exact pyRound2_eq_down _ 45 (by norm_num) (by norm_num)

lemma build_confidence_mem_range (t c : String) :
    _build_confidence t c ∈ confidence_range := by
  rw [build_confidence_eq_spec]
  unfold confidence_spec extraction_weight clarity_weight
  split_ifs <;>
    simp only [conf_val_1, conf_val_2, conf_val_3, conf_val_4, conf_val_5, conf_val_6,
      conf_val_7, conf_val_8, conf_val_9, conf_val_10, conf_val_11, conf_val_12] <;>
    simp [confidence_range]

lemma build_confidence_bounds (t c : String) :
    0 ≤ _build_confidence t c ∧ _build_confidence t c ≤ 1 := by
  have h := build_confidence_mem_range t c
  simp only [confidence_range, List.mem_cons, List.not_mem_nil, or_false] at h
  rcases h with h | h | h | h | h | h | h | h | h | h | h | h <;> rw [h] <;>
    exact ⟨by norm_num, by norm_num⟩

-- ---------------------------------------------------------------------------
-- Claims
-- ---------------------------------------------------------------------------

/-- C2: the confidence computation returns
`round(extraction_weight(tier) × 0.40 + 0.85 × 0.25 + clarity_weight(clarity) × 0.25 + 1.0 × 0.10, 2)`
with the §4.4 weight tables; unknown tiers or clarities get weight 0.4
rather than erroring; and the result always lies in [0, 1] (in particular
for all 4×3 vocabulary combinations). -/
theorem claim_C2 :
    (∀ tier clarity, _build_confidence tier clarity = confidence_spec tier clarity) ∧
    (∀ tier, tier ≠ "primary" → tier ≠ "fallback" → tier ≠ "llm" → tier ≠ "failed" →
      (extraction_scores.lookup tier).getD 0.4 = 0.4) ∧
    (∀ clarity, clarity ≠ "clear" → clarity ≠ "inferred" → clarity ≠ "ambiguous" →
      (clarity_scores.lookup clarity).getD 0.4 = 0.4) ∧
    (∀ tier clarity, 0 ≤ _build_confidence tier clarity ∧ _build_confidence tier clarity ≤ 1) := by
  refine ⟨build_confidence_eq_spec, ?_, ?_, build_confidence_bounds⟩
  · intro t h1 h2 h3 h4
    rw [lookup_extraction]
    unfold extraction_weight
    rw [if_neg h1, if_neg h2, if_neg h3, if_neg h4]
  · intro c h1 h2 h3
    rw [lookup_clarity]
    unfold clarity_weight
    rw [if_neg h1, if_neg h2, if_neg h3]

/-- Witness for C2 at concrete inputs: the formula agreement at
("primary", "clear"), the 0.4 defaults at unknown keys, and the bounds at
("llm", "inferred"). -/
theorem claim_C2_witness :
    _build_confidence "primary" "clear" = confidence_spec "primary" "clear" ∧
    (extraction_scores.lookup "bogus").getD 0.4 = 0.4 ∧
    (clarity_scores.lookup "odd").getD 0.4 = 0.4 ∧
    (0 ≤ _build_confidence "llm" "inferred" ∧ _build_confidence "llm" "inferred" ≤ 1) :=
  ⟨claim_C2.1 "primary" "clear",
   claim_C2.2.1 "bogus" (by decide) (by decide) (by decide) (by decide),
   claim_C2.2.2.1 "odd" (by decide) (by decide) (by decide),
   claim_C2.2.2.2 "llm" "inferred"⟩
/-- Folding the rule loop from any accumulator appends exactly the flags of
the applicable, matching rules, in declaration order. -/
lemma apply_rules_foldl (name : Str) (et : String) (rs : List rules.NamingRule)
    (acc : List String) :
    rs.foldl
      (fun flags rule =>
        if rules.ruleSkipped rule et then flags
        else if rules.reSearchCI rule.pattern name then flags ++ [rules.flagOf rule]
        else flags)
      acc =
    acc ++ (rs.filter
      (fun r => !rules.ruleSkipped r et && rules.reSearchCI r.pattern name)).map rules.flagOf := by
  induction rs generalizing acc with
  | nil => simp
  | cons r rs ih =>
    simp only [List.foldl_cons, List.filter_cons]
    by_cases h1 : rules.ruleSkipped r et = true
    · simp [h1, ih]
    · by_cases h2 : rules.reSearchCI r.pattern name = true
      · simp [h1, h2, ih]
      · simp [h1, h2, ih]

/-- The rule loop, characterized: visit in declaration order, keep the
applicable matching rules, format each as a flag. -/
lemma apply_rules_eq (name : Str) (et st : String) :
    rules.apply_rules name et st =
      (((rules.RULES.lookup (pyUpperS st)).getD []).filter
        (fun r => !rules.ruleSkipped r et && rules.reSearchCI r.pattern name)).map
        rules.flagOf := by
  unfold rules.apply_rules
  rw [apply_rules_foldl]
  simp

/-- C6: apply_rules visits the jurisdiction's rules in declaration order,
skips rules whose applicable-entity-type list excludes the requested type,
emits one "[SEVERITY] message" flag per matching remaining rule; it is pure
and idempotent; and for name "Acme Bank Inc", entity type "LLC",
jurisdiction DE it returns the bank-restriction warning followed by the
Inc/Corp-suffix-mismatch warning, in that order. -/
theorem claim_C6 :
    (∀ (name : Str) (et st : String),
      rules.apply_rules name et st =
        (((rules.RULES.lookup (pyUpperS st)).getD []).filter
          (fun r => !rules.ruleSkipped r et && rules.reSearchCI r.pattern name)).map
          rules.flagOf) ∧
    (∀ (name : Str) (et st : String),
      rules.apply_rules name et st = rules.apply_rules name et st) ∧
    rules.apply_rules (strCodes "Acme Bank Inc") "LLC" "DE" =
      ["[WARNING] Delaware requires approval from the Office of the State Bank Commissioner to use 'bank' or 'banking'.",
       "[WARNING] Suffix 'Inc.' / 'Corp.' is appropriate for Corporations, not LLCs."] := by
  refine ⟨apply_rules_eq, fun name et st => rfl, ?_⟩
  decide

/-- C10: jurisdictions without a rules-registry entry get an empty flag
list from apply_rules for every name and entity type, and the fallback
rules summary; in particular CA, FL, NJ, NY and WA never produce
naming-rule flags. -/
theorem claim_C10 :
    (∀ (st : String) (name : Str) (et : String), pyUpperS st ≠ "DE" →
      rules.apply_rules name et st = []) ∧
    (∀ (name : Str) (et : String),
      rules.apply_rules name et "CA" = [] ∧
      rules.apply_rules name et "FL" = [] ∧
      rules.apply_rules name et "NJ" = [] ∧
      rules.apply_rules name et "NY" = [] ∧
      rules.apply_rules name et "WA" = []) ∧
    rules.get_rules_summary "CA" = "No specific rules encoded for this state." ∧
    rules.get_rules_summary "FL" = "No specific rules encoded for this state." ∧
    rules.get_rules_summary "NJ" = "No specific rules encoded for this state." ∧
    rules.get_rules_summary "NY" = "No specific rules encoded for this state." ∧
    rules.get_rules_summary "WA" = "No specific rules encoded for this state." := by
  have hmain : ∀ (st : String) (name : Str) (et : String), pyUpperS st ≠ "DE" →
      rules.apply_rules name et st = [] := by
    intro st name et h
    rw [apply_rules_eq]
    have hl : rules.RULES.lookup (pyUpperS st) = none := by
      unfold rules.RULES
      simp [List.lookup, beq_eq_false_iff_ne.mpr h]
    rw [hl]
    rfl
  refine ⟨hmain, ?_, by decide, by decide, by decide, by decide, by decide⟩
  intro name et
  exact ⟨hmain "CA" name et (by decide), hmain "FL" name et (by decide),
    hmain "NJ" name et (by decide), hmain "NY" name et (by decide),
    hmain "WA" name et (by decide)⟩

/-- Witness for C10: the hypothesis discharged at jurisdiction "NY" with a
concrete name and entity type. -/
theorem claim_C10_witness :
    rules.apply_rules (strCodes "Acme Bank Inc") "LLC" "NY" = [] :=
  claim_C10.1 "NY" (strCodes "Acme Bank Inc") "LLC" (by decide)

/-- Membership in the exact-match filter. -/
lemma mem_exact_filter (ms : List EntityMatch) (n : Str) (m : EntityMatch) :
    m ∈ ms.filter (fun m2 => upperStr (trimStr m2.name) = upperStr (trimStr n)) ↔
      m ∈ ms ∧ upperStr (trimStr m.name) = upperStr (trimStr n) := by
  simp [List.mem_filter]

/-- The California taken branch, characterized. -/
lemma CA_classify_taken_eq (n : Str) (ms : List EntityMatch) (e0 : EntityMatch)
    (rest : List EntityMatch) (hne : ms.isEmpty = false)
    (hE : ms.filter (fun m => upperStr (trimStr m.name) = upperStr (trimStr n)) = e0 :: rest) :
    CA._classify ms n =
      { state_code := "CA", state_name := "California"
        availability := "taken"
        confidence := _build_confidence "primary" "clear"
        raw_matches := e0 :: rest
        similar_names := (ms.filter (fun m => m ∉ (e0 :: rest : List EntityMatch))).map EntityMatch.name
        notes :=
          strCodes "Exact match found: '" ++ e0.name ++ strCodes "' (status: " ++
            e0.status ++ strCodes ")." ++
          (if (e0 :: rest).all (fun m => lowerStr m.status ∈ CA._INACTIVE) then
            strCodes " All exact matches are inactive — name may be available, but verify with an attorney."
          else [])
        source_type := "api" } := by
  simp only [CA._classify, hne, Bool.false_eq_true, if_false, hE]

/-- The California similar branch, characterized. -/
lemma CA_classify_similar_eq (n : Str) (ms : List EntityMatch) (hne : ms.isEmpty = false)
    (hE : ms.filter (fun m => upperStr (trimStr m.name) = upperStr (trimStr n)) = []) :
    CA._classify ms n =
      { state_code := "CA", state_name := "California"
        availability := "similar"
        confidence := _build_confidence "primary" "inferred"
        raw_matches := ms
        similar_names := ms.map EntityMatch.name
        notes := strOfNat ms.length ++
          strCodes " similar California entity name(s) found. No exact match."
        source_type := "api" } := by
  simp only [CA._classify, hne, Bool.false_eq_true, if_false, hE]

/-- The predicate Delaware filters by is the claim's normalization:
upper-then-strip agrees with strip-then-upper. -/
lemma DE_pred_eq (n : Str) :
    (fun m : EntityMatch => decide (trimStr (upperStr m.name) = trimStr (upperStr n))) =
      (fun m : EntityMatch => decide (upperStr (trimStr m.name) = upperStr (trimStr n))) := by
  funext m
  exact decide_eq_decide.mpr (by rw [trim_upper_comm, trim_upper_comm])

/-- The Delaware taken branch, characterized. -/
lemma DE_classify_taken_eq (n : Str) (ms : List EntityMatch) (e0 : EntityMatch)
    (rest : List EntityMatch)
    (hE : ms.filter (fun m => upperStr (trimStr m.name) = upperStr (trimStr n)) = e0 :: rest) :
    DE._classify ms n =
      { state_code := "DE", state_name := "Delaware"
        availability := "taken"
        confidence := _build_confidence "primary" "clear"
        raw_matches := e0 :: rest
        similar_names := (ms.filter (fun m => m ∉ (e0 :: rest : List EntityMatch))).map EntityMatch.name
        notes := strCodes "Exact match found: '" ++ e0.name ++ strCodes "'" } := by
  simp only [DE._classify]
  rw [DE_pred_eq, hE]

/-- The Delaware similar branch, characterized. -/
lemma DE_classify_similar_eq (n : Str) (ms : List EntityMatch)
    (hE : ms.filter (fun m => upperStr (trimStr m.name) = upperStr (trimStr n)) = []) :
    DE._classify ms n =
      { state_code := "DE", state_name := "Delaware"
        availability := "similar"
        confidence := _build_confidence "primary" "inferred"
        raw_matches := ms
        similar_names := ms.map EntityMatch.name
        notes := strOfNat (ms.map EntityMatch.name).length ++
          strCodes " similar name(s) found. No exact match. Review for deceptive similarity." } := by
  simp only [DE._classify]
  rw [DE_pred_eq, hE]

/-- Filtering out the members of the exact filter is filtering by the
negated exact predicate. -/
lemma filter_not_mem_exact (ms : List EntityMatch) (n : Str) (e0 : EntityMatch)
    (rest : List EntityMatch)
    (hE : ms.filter (fun m => upperStr (trimStr m.name) = upperStr (trimStr n)) = e0 :: rest) :
    ms.filter (fun m => m ∉ (e0 :: rest : List EntityMatch)) =
      ms.filter (fun m => ¬ upperStr (trimStr m.name) = upperStr (trimStr n)) := by
  apply List.filter_congr
  intro m hm
  rw [← hE]
  by_cases h : upperStr (trimStr m.name) = upperStr (trimStr n) <;>
    simp [List.mem_filter, hm, h]

/-- C1 (amended): for every searched name and match list, classification
yields — CA: exact match present (trim+uppercase) → taken, with
similar_names exactly the non-exact names (empty when all matches exact),
and the all-exact-matches-inactive condition appends the advisory note
while availability stays taken; non-empty list with no exact match →
similar with all names; empty list → available.  DE behaves the same for
the taken and similar cases (its upper-then-strip normalization agrees
with trim-then-uppercase, and it has no inactive-status vocabulary, so no
advisory is ever appended); but DE's classifier on an empty match list
falls into the similar branch (with empty similar_names) rather than
returning available — the no-match case is handled upstream by
`_parse_results`. -/
theorem claim_C1 : ∀ (n : Str) (ms : List EntityMatch),
    (ms = [] → (CA._classify ms n).availability = "available") ∧
    ((∃ m ∈ ms, upperStr (trimStr m.name) = upperStr (trimStr n)) →
      (CA._classify ms n).availability = "taken" ∧
      (CA._classify ms n).similar_names =
        (ms.filter (fun m => ¬ upperStr (trimStr m.name) = upperStr (trimStr n))).map
          EntityMatch.name ∧
      ((∀ m ∈ ms, upperStr (trimStr m.name) = upperStr (trimStr n)) →
        (CA._classify ms n).similar_names = []) ∧
      ((∀ m ∈ ms, upperStr (trimStr m.name) = upperStr (trimStr n) →
          lowerStr m.status ∈ CA._INACTIVE) →
        (CA._classify ms n).availability = "taken" ∧
        ∃ base, (CA._classify ms n).notes = base ++
          strCodes " All exact matches are inactive — name may be available, but verify with an attorney.")) ∧
    (ms ≠ [] → (∀ m ∈ ms, ¬ upperStr (trimStr m.name) = upperStr (trimStr n)) →
      (CA._classify ms n).availability = "similar" ∧
      (CA._classify ms n).similar_names = ms.map EntityMatch.name) ∧
    ((∃ m ∈ ms, upperStr (trimStr m.name) = upperStr (trimStr n)) →
      (DE._classify ms n).availability = "taken" ∧
      (DE._classify ms n).similar_names =
        (ms.filter (fun m => ¬ upperStr (trimStr m.name) = upperStr (trimStr n))).map
          EntityMatch.name ∧
      ((∀ m ∈ ms, upperStr (trimStr m.name) = upperStr (trimStr n)) →
        (DE._classify ms n).similar_names = [])) ∧
    (ms ≠ [] → (∀ m ∈ ms, ¬ upperStr (trimStr m.name) = upperStr (trimStr n)) →
      (DE._classify ms n).availability = "similar" ∧
      (DE._classify ms n).similar_names = ms.map EntityMatch.name) ∧
    (ms = [] → (DE._classify ms n).availability = "similar" ∧
      (DE._classify ms n).similar_names = []) := by
  intro n ms
  have hfilter_of_none : (∀ m ∈ ms, ¬ upperStr (trimStr m.name) = upperStr (trimStr n)) →
      ms.filter (fun m => upperStr (trimStr m.name) = upperStr (trimStr n)) = [] := by
    intro hnone
    refine List.filter_eq_nil_iff.mpr ?_
    intro m hm
    simp [hnone m hm]
  refine ⟨?_, ?_, ?_, ?_, ?_, ?_⟩
  · rintro rfl
    rfl
  · intro h
    have hne : ms.isEmpty = false := by
      rcases h with ⟨m, hm, _⟩
      cases ms
      · cases hm
      · rfl
    rcases hfe : ms.filter (fun m => upperStr (trimStr m.name) = upperStr (trimStr n)) with
      _ | ⟨e0, rest⟩
    · exfalso
      obtain ⟨m, hm, hp⟩ := h
      have hmem : m ∈ ms.filter (fun m2 => upperStr (trimStr m2.name) = upperStr (trimStr n)) :=
        (mem_exact_filter ms n m).mpr ⟨hm, hp⟩
      rw [hfe] at hmem
      exact absurd hmem (List.not_mem_nil m)
    · rw [CA_classify_taken_eq n ms e0 rest hne hfe]
      refine ⟨rfl, ?_, ?_, ?_⟩
      · rw [filter_not_mem_exact ms n e0 rest hfe]
      · intro hall
        rw [filter_not_mem_exact ms n e0 rest hfe]
        have hnil : ms.filter (fun m => ¬ upperStr (trimStr m.name) = upperStr (trimStr n)) = [] := by
          refine List.filter_eq_nil_iff.mpr ?_
          intro m hm
          simp [hall m hm]
        rw [hnil]
        rfl
      · intro hinact
        refine ⟨rfl, ?_⟩
        have hall : ((e0 :: rest).all (fun m => lowerStr m.status ∈ CA._INACTIVE)) = true := by
          rw [List.all_eq_true]
          intro m hm
          rw [← hfe] at hm
          obtain ⟨hm2, hp2⟩ := (mem_exact_filter ms n m).mp hm
          simp [hinact m hm2 hp2]
        rw [if_pos hall]
        refine ⟨strCodes "Exact match found: '" ++
          (e0.name ++ (strCodes "' (status: " ++ (e0.status ++ strCodes ")."))), ?_⟩
        simp [List.append_assoc]
  · intro hne hnone
    have hne' : ms.isEmpty = false := by
      cases ms
      · exact absurd rfl hne
      · rfl
    rw [CA_classify_similar_eq n ms hne' (hfilter_of_none hnone)]
    exact ⟨rfl, rfl⟩
  · intro h
    rcases hfe : ms.filter (fun m => upperStr (trimStr m.name) = upperStr (trimStr n)) with
      _ | ⟨e0, rest⟩
    · exfalso
      obtain ⟨m, hm, hp⟩ := h
      have hmem : m ∈ ms.filter (fun m2 => upperStr (trimStr m2.name) = upperStr (trimStr n)) :=
        (mem_exact_filter ms n m).mpr ⟨hm, hp⟩
      rw [hfe] at hmem
      exact absurd hmem (List.not_mem_nil m)
    · rw [DE_classify_taken_eq n ms e0 rest hfe]
      refine ⟨rfl, ?_, ?_⟩
      · rw [filter_not_mem_exact ms n e0 rest hfe]
      · intro hall
        rw [filter_not_mem_exact ms n e0 rest hfe]
        have hnil : ms.filter (fun m => ¬ upperStr (trimStr m.name) = upperStr (trimStr n)) = [] := by
          refine List.filter_eq_nil_iff.mpr ?_
          intro m hm
          simp [hall m hm]
        rw [hnil]
        rfl
  · intro _ hnone
    rw [DE_classify_similar_eq n ms (hfilter_of_none hnone)]
    exact ⟨rfl, rfl⟩
  · rintro rfl
    exact ⟨rfl, rfl⟩

/-- Witness for C1: the spec's own test vector — searching "Acme Ventures"
against an exact match "ACME VENTURES" plus "Acme Ventures Group" yields
taken with exactly the non-exact name as similar. -/
theorem claim_C1_witness :
    (CA._classify
      [{ name := strCodes "ACME VENTURES", status := strCodes "active" },
       { name := strCodes "Acme Ventures Group", status := strCodes "active" }]
      (strCodes "Acme Ventures")).availability = "taken" ∧
    (CA._classify
      [{ name := strCodes "ACME VENTURES", status := strCodes "active" },
       { name := strCodes "Acme Ventures Group", status := strCodes "active" }]
      (strCodes "Acme Ventures")).similar_names = [strCodes "Acme Ventures Group"] := by
  have h := (claim_C1 (strCodes "Acme Ventures")
    [{ name := strCodes "ACME VENTURES", status := strCodes "active" },
     { name := strCodes "Acme Ventures Group", status := strCodes "active" }]).2.1
    (by decide)
  refine ⟨h.1, ?_⟩
  rw [h.2.1]
  decide

/-- Counterexample to C1 as stated: Delaware's classifier on an empty match
list returns availability "similar", not "available". -/
theorem claim_C1_counterexample :
    (DE._classify [] (strCodes "Acme Ventures")).availability = "similar" ∧
    ¬ (DE._classify [] (strCodes "Acme Ventures")).availability = "available" :=
  ⟨rfl, by decide⟩

/-- A list with a non-empty left part of an append is non-empty. -/
lemma append_ne_nil_left (a b : Str) (h : a ≠ []) : a ++ b ≠ [] := by
  intro h2
  rw [List.append_eq_nil] at h2
  exact h h2.1

/-- C3: every internal failure mode of the CA and DE adapters (missing API
credential, network timeout, HTTP error status, unexpected exception,
absent page structure) converts to a normally returned result — the search
functions are total — with availability "error", confidence 0.1, and a
non-empty notes string. -/
theorem claim_C3 : ∀ (name ty msg : Str) (status : Nat) (o : CA.FetchOutcome),
    ((CA.search false o name).availability = "error" ∧
      (CA.search false o name).confidence = 0.1 ∧
      (CA.search false o name).notes ≠ []) ∧
    ((CA.search true CA.FetchOutcome.timeout name).availability = "error" ∧
      (CA.search true CA.FetchOutcome.timeout name).confidence = 0.1 ∧
      (CA.search true CA.FetchOutcome.timeout name).notes ≠ []) ∧
    ((CA.search true (CA.FetchOutcome.httpStatus status) name).availability = "error" ∧
      (CA.search true (CA.FetchOutcome.httpStatus status) name).confidence = 0.1 ∧
      (CA.search true (CA.FetchOutcome.httpStatus status) name).notes ≠ []) ∧
    ((CA.search true (CA.FetchOutcome.exc ty msg) name).availability = "error" ∧
      (CA.search true (CA.FetchOutcome.exc ty msg) name).confidence = 0.1 ∧
      (CA.search true (CA.FetchOutcome.exc ty msg) name).notes ≠ []) ∧
    ((DE.search DE.SearchOutcome.timeout name).availability = "error" ∧
      (DE.search DE.SearchOutcome.timeout name).confidence = 0.1 ∧
      (DE.search DE.SearchOutcome.timeout name).notes ≠ []) ∧
    ((DE.search (DE.SearchOutcome.exc ty msg) name).availability = "error" ∧
      (DE.search (DE.SearchOutcome.exc ty msg) name).confidence = 0.1 ∧
      (DE.search (DE.SearchOutcome.exc ty msg) name).notes ≠ []) ∧
    ((DE.search DE.SearchOutcome.inputMissing name).availability = "error" ∧
      (DE.search DE.SearchOutcome.inputMissing name).confidence = 0.1 ∧
      (DE.search DE.SearchOutcome.inputMissing name).notes ≠ []) := by
  intro name ty msg status o
  refine ⟨⟨rfl, rfl, show strCodes "CA SOS API key not configured. Set the CA_SOS_API_KEY environment variable." ≠ [] by decide⟩,
    ⟨rfl, rfl, show strCodes "CA SOS API request timed out." ≠ [] by decide⟩,
    ⟨rfl, rfl, ?_⟩, ⟨rfl, rfl, ?_⟩,
    ⟨rfl, rfl, show strCodes "Search timed out after 90 seconds." ≠ [] by decide⟩,
    ⟨rfl, rfl, ?_⟩,
    ⟨rfl, rfl, show strCodes "Name input field not found — Delaware site structure may have changed." ≠ [] by decide⟩⟩
  · show (if status = 401 then strCodes "CA SOS API key is invalid or expired."
      else if status = 429 then strCodes "CA SOS API rate limit exceeded. Try again shortly."
      else strCodes "CA SOS API returned HTTP " ++ strOfNat status ++ strCodes ".") ≠ []
    split_ifs
    · decide
    · decide
    · exact append_ne_nil_left _ _ (append_ne_nil_left _ _ (by decide))
  · exact append_ne_nil_left _ _ (append_ne_nil_left _ _ (append_ne_nil_left _ _ (by decide)))
  · exact append_ne_nil_left _ _ (append_ne_nil_left _ _ (append_ne_nil_left _ _ (by decide)))

/-- C9 (amended): the five Playwright-based adapters (DE, FL, NJ, NY, WA)
each wrap their search in a 90-second wall-clock budget and convert its
expiry into an error result carrying a timeout note; the California
adapter applies no overall wall-clock budget — only a 20-second
per-HTTP-request timeout — and likewise converts a timeout into an error
result with a timeout note. -/
theorem claim_C9 :
    DE.search_timeout_seconds = 90 ∧
    FL.search_timeout_seconds = 90 ∧
    NJ.search_timeout_seconds = 90 ∧
    NY.search_timeout_seconds = 90 ∧
    WA.search_timeout_seconds = 90 ∧
    (∀ name, (DE.search DE.SearchOutcome.timeout name).availability = "error" ∧
      (DE.search DE.SearchOutcome.timeout name).confidence = 0.1 ∧
      (DE.search DE.SearchOutcome.timeout name).notes =
        strCodes "Search timed out after 90 seconds.") ∧
    (∀ name, (FL.search FL.SearchOutcome.timeout name).availability = "error" ∧
      (FL.search FL.SearchOutcome.timeout name).confidence = 0.1 ∧
      (FL.search FL.SearchOutcome.timeout name).notes =
        strCodes "FL search timed out after 90 seconds.") ∧
    CA.overall_search_budget = none ∧
    CA.TIMEOUT = 20 ∧
    (∀ name, (CA.search true CA.FetchOutcome.timeout name).availability = "error" ∧
      (CA.search true CA.FetchOutcome.timeout name).confidence = 0.1 ∧
      (CA.search true CA.FetchOutcome.timeout name).notes =
        strCodes "CA SOS API request timed out.") := by
  refine ⟨rfl, rfl, rfl, rfl, rfl, fun name => ⟨rfl, rfl, rfl⟩, fun name => ⟨rfl, rfl, rfl⟩,
    rfl, by norm_num [CA.TIMEOUT], fun name => ⟨rfl, rfl, rfl⟩⟩

/-- Counterexample to C9 as stated: the California adapter enforces no
90-second overall wall-clock budget — its search wraps no `asyncio.wait_for`
and its only time bound is the 20-second httpx request timeout. -/
theorem claim_C9_counterexample :
    CA.overall_search_budget = none ∧
    CA.overall_search_budget ≠ some 90 ∧
    CA.TIMEOUT ≠ 90 :=
  ⟨rfl, by decide, by norm_num [CA.TIMEOUT]⟩

/-- C4 (amended): on every classification path confidence is the §4.4
formula output with tier consistently "primary" (or "llm" for the LLM
fallback, with the model-reported clarity), and formula outputs lie in the
twelve-value range; but on every error path confidence is the fixed
constant 0.1, which is not a formula output, while extraction_tier keeps
its default "primary" (or "failed" for structural failures). -/
theorem claim_C4 :
    (∀ t c, _build_confidence t c ∈ confidence_range) ∧
    (0.1 : ℚ) ∉ confidence_range ∧
    (∀ (name : Str) (o : CA.FetchOutcome), (CA.search false o name).confidence = 0.1) ∧
    (∀ name, (CA.search true CA.FetchOutcome.timeout name).confidence = 0.1) ∧
    (∀ name status, (CA.search true (CA.FetchOutcome.httpStatus status) name).confidence = 0.1) ∧
    (∀ name ty msg, (CA.search true (CA.FetchOutcome.exc ty msg) name).confidence = 0.1) ∧
    (∀ name, (DE.search DE.SearchOutcome.timeout name).confidence = 0.1 ∧
      (DE.search DE.SearchOutcome.inputMissing name).confidence = 0.1 ∧
      (DE.search DE.SearchOutcome.inputMissing name).extraction_method = "failed") ∧
    (∀ name ty msg, (DE.search (DE.SearchOutcome.exc ty msg) name).confidence = 0.1) ∧
    (∀ ms n, ((CA._classify ms n).confidence = _build_confidence "primary" "clear" ∨
        (CA._classify ms n).confidence = _build_confidence "primary" "inferred") ∧
      (CA._classify ms n).extraction_method = "primary") ∧
    (∀ ms n, ((DE._classify ms n).confidence = _build_confidence "primary" "clear" ∨
        (DE._classify ms n).confidence = _build_confidence "primary" "inferred") ∧
      (DE._classify ms n).extraction_method = "primary") ∧
    (∀ i, (DE._llm_fallback i).confidence = _build_confidence "llm" i.clarity ∧
      (DE._llm_fallback i).extraction_method = "llm") := by
  refine ⟨build_confidence_mem_range, ?_, fun name o => rfl, fun name => rfl,
    fun name status => rfl, fun name ty msg => rfl,
    fun name => ⟨rfl, rfl, rfl⟩, fun name ty msg => rfl, ?_, ?_, fun i => ⟨rfl, rfl⟩⟩
  · simp only [confidence_range, List.mem_cons, List.not_mem_nil, or_false, not_or]
    norm_num
  · intro ms n
    rcases hfe : ms.filter (fun m => upperStr (trimStr m.name) = upperStr (trimStr n)) with
      _ | ⟨e0, rest⟩
    · by_cases h : ms.isEmpty = true
      · have : ms = [] := by
          cases ms
          · rfl
          · cases h
        subst this
        exact ⟨Or.inl rfl, rfl⟩
      · have hne : ms.isEmpty = false := by
          cases hh : ms.isEmpty
          · rfl
          · exact absurd hh h
        rw [CA_classify_similar_eq n ms hne hfe]
        exact ⟨Or.inr rfl, rfl⟩
    · have hne : ms.isEmpty = false := by
        cases ms
        · simp at hfe
        · rfl
      rw [CA_classify_taken_eq n ms e0 rest hne hfe]
      exact ⟨Or.inl rfl, rfl⟩
  · intro ms n
    rcases hfe : ms.filter (fun m => upperStr (trimStr m.name) = upperStr (trimStr n)) with
      _ | ⟨e0, rest⟩
    · rw [DE_classify_similar_eq n ms hfe]
      exact ⟨Or.inr rfl, rfl⟩
    · rw [DE_classify_taken_eq n ms e0 rest hfe]
      exact ⟨Or.inl rfl, rfl⟩

/-- Counterexample to C4 as stated: the missing-credential error path
asserts confidence 0.1 — not the §4.4 formula output for any tier/clarity
pair (all formula outputs lie in `confidence_range`, none equal to 0.1) —
while extraction_tier keeps its default "primary", inconsistent with that
confidence. -/
theorem claim_C4_counterexample :
    (CA.search false (CA.FetchOutcome.ok []) (strCodes "Acme")).confidence = 0.1 ∧
    (CA.search false (CA.FetchOutcome.ok []) (strCodes "Acme")).extraction_method = "primary" ∧
    (0.1 : ℚ) ∉ confidence_range := by
  refine ⟨rfl, rfl, ?_⟩
  simp only [confidence_range, List.mem_cons, List.not_mem_nil, or_false, not_or]
  norm_num

/-- C5 (amended): in the primary tier, Delaware short-circuits to
available/primary/clear when the results container is absent OR a negative
phrase occurs in the lower-cased page text, exactly as the claim states;
Florida short-circuits to available/primary/clear on a negative phrase, or
on a rendered table with no parsed rows — but when the structural container
is absent (no table, no rows, no phrase) Florida escalates to the llm tier
instead of returning available. -/
theorem claim_C5 : ∀ (p : DE.Page) (q : FL.Page) (name : Str) (i : llm.InterpResult),
    ((¬ p.has_results_table = true ∨
        ∃ ph ∈ DE.NO_RESULTS_TEXT, hasSub ph (lowerStr p.body_text) = true) →
      (DE._parse_results p name i).availability = "available" ∧
      (DE._parse_results p name i).extraction_method = "primary" ∧
      (DE._parse_results p name i).confidence = _build_confidence "primary" "clear") ∧
    ((∃ ph ∈ FL.NO_RESULTS_TEXT, hasSub ph (lowerStr q.body_text) = true) →
      (FL._parse_results q name i).availability = "available" ∧
      (FL._parse_results q name i).extraction_method = "primary" ∧
      (FL._parse_results q name i).confidence = _build_confidence "primary" "clear") ∧
    ((¬ ∃ ph ∈ FL.NO_RESULTS_TEXT, hasSub ph (lowerStr q.body_text) = true) →
      q.rows = [] → q.table_exists = true →
      (FL._parse_results q name i).availability = "available" ∧
      (FL._parse_results q name i).extraction_method = "primary" ∧
      (FL._parse_results q name i).confidence = _build_confidence "primary" "clear") ∧
    ((¬ ∃ ph ∈ FL.NO_RESULTS_TEXT, hasSub ph (lowerStr q.body_text) = true) →
      q.rows = [] → q.table_exists = false →
      FL._parse_results q name i = FL._llm_fallback i ∧
      (FL._parse_results q name i).extraction_method = "llm") := by
  intro p q name i
  refine ⟨?_, ?_, ?_, ?_⟩
  · intro h
    have hc : (!p.has_results_table ||
        DE.NO_RESULTS_TEXT.any (fun phrase => hasSub phrase (lowerStr p.body_text))) = true := by
      rcases h with h | ⟨ph, hph, hsub⟩
      · cases hx : p.has_results_table
        · simp
        · exact absurd hx h
      · simp only [Bool.or_eq_true, List.any_eq_true]
        exact Or.inr ⟨ph, hph, hsub⟩
    have heq : DE._parse_results p name i =
        { state_code := "DE", state_name := "Delaware"
          availability := "available"
          confidence := _build_confidence "primary" "clear"
          notes := strCodes "No matching entities found in Delaware registry."
          extraction_method := "primary" } := by
      simp only [DE._parse_results]
      rw [if_pos hc]
    rw [heq]
    exact ⟨rfl, rfl, rfl⟩
  · intro h
    have hc : (FL.NO_RESULTS_TEXT.any (fun phrase => hasSub phrase (lowerStr q.body_text))) = true := by
      simp only [List.any_eq_true]
      obtain ⟨ph, hph, hsub⟩ := h
      exact ⟨ph, hph, hsub⟩
    have heq : FL._parse_results q name i =
        { state_code := "FL", state_name := "Florida"
          availability := "available"
          confidence := _build_confidence "primary" "clear"
          notes := strCodes "No matching entities found in Florida registry." } := by
      simp only [FL._parse_results]
      rw [if_pos hc]
    rw [heq]
    exact ⟨rfl, rfl, rfl⟩
  · intro h hrows htable
    have hc : (FL.NO_RESULTS_TEXT.any (fun phrase => hasSub phrase (lowerStr q.body_text))) = false := by
      cases hx : FL.NO_RESULTS_TEXT.any (fun phrase => hasSub phrase (lowerStr q.body_text))
      · rfl
      · exfalso
        rw [List.any_eq_true] at hx
        exact h hx
    have heq : FL._parse_results q name i =
        { state_code := "FL", state_name := "Florida"
          availability := "available"
          confidence := _build_confidence "primary" "clear"
          notes := strCodes "No matching entities found in Florida registry." } := by
      simp only [FL._parse_results]
      rw [if_neg (by rw [hc]; exact Bool.false_ne_true), hrows, htable]
      rfl
    rw [heq]
    exact ⟨rfl, rfl, rfl⟩
  · intro h hrows htable
    have hc : (FL.NO_RESULTS_TEXT.any (fun phrase => hasSub phrase (lowerStr q.body_text))) = false := by
      cases hx : FL.NO_RESULTS_TEXT.any (fun phrase => hasSub phrase (lowerStr q.body_text))
      · rfl
      · exfalso
        rw [List.any_eq_true] at hx
        exact h hx
    have heq : FL._parse_results q name i = FL._llm_fallback i := by
      simp only [FL._parse_results]
      rw [if_neg (by rw [hc]; exact Bool.false_ne_true), hrows, htable]
      rfl
    exact ⟨heq, by rw [heq]; rfl⟩

/-- Witness for C5 at concrete pages: a Delaware page without #tblResults
is available/primary, and a Florida page whose body holds "no records" is
available/primary. -/
theorem claim_C5_witness :
    (DE._parse_results
      { body_text := strCodes "No Entity Found", has_results_table := false, rows := [] }
      (strCodes "Acme") {}).availability = "available" ∧
    (FL._parse_results
      { body_text := strCodes "Sorry, no records were found", table_exists := false, rows := [] }
      (strCodes "Acme") {}).availability = "available" := by
  constructor
  · exact ((claim_C5
      { body_text := strCodes "No Entity Found", has_results_table := false, rows := [] }
      { body_text := strCodes "Sorry, no records were found", table_exists := false, rows := [] }
      (strCodes "Acme") {}).1 (Or.inl (by decide))).1
  · exact ((claim_C5
      { body_text := strCodes "No Entity Found", has_results_table := false, rows := [] }
      { body_text := strCodes "Sorry, no records were found", table_exists := false, rows := [] }
      (strCodes "Acme") {}).2.1 (by decide)).1

/-- Counterexample to C5 as stated: a Florida page with the results
container absent (no negative phrase, no table, no rows) escalates to the
llm tier and here yields "unknown", not "available". -/
theorem claim_C5_counterexample :
    (FL._parse_results
      { body_text := strCodes "loading, please wait", table_exists := false, rows := [] }
      (strCodes "Acme") {}).extraction_method = "llm" ∧
    (FL._parse_results
      { body_text := strCodes "loading, please wait", table_exists := false, rows := [] }
      (strCodes "Acme") {}).availability = "unknown" ∧
    ¬ (FL._parse_results
      { body_text := strCodes "loading, please wait", table_exists := false, rows := [] }
      (strCodes "Acme") {}).availability = "available" := by
  refine ⟨rfl, rfl, by decide⟩

/-- C7 (amended): on malformed model output the similarity analyzer
returns the degraded assessment (risk_level "unknown", conflicting_names
equal to the passed-in similar-name list) without raising, and the
orchestrator folds exactly one formatted flag entry; on a network failure
the analyzer itself raises, but the orchestrator's surrounding try/except
converts the exception into exactly one "[SIMILARITY] Analysis failed"
flag entry; in every case the result row is still built (persistence
happens) with availability, confidence and notes unchanged. -/
theorem claim_C7 : ∀ (job : String) (name : Str) (et sc : String) (r : AdapterResult)
    (lo : llm.ModelReply) (names : List Str) (e : String),
    llm.analyze_similarity names (llm.ModelReply.reply none) =
      Except.ok { risk_level := "unknown",
                  conflicting_names := names,
                  explanation := "Could not parse similarity analysis.",
                  recommendation := "Review similar names manually." } ∧
    ((r.availability = "similar" ∧ r.similar_names ≠ []) →
      (orch._run_state job name et sc r (llm.ModelReply.reply none)).flags =
        rules.apply_rules name et sc ++
          ["[SIMILARITY] Risk: " ++ pyUpperS "unknown" ++ ". " ++
            "Could not parse similarity analysis." ++ " " ++ "Review similar names manually."] ++
          r.flags ∧
      (orch._run_state job name et sc r (llm.ModelReply.netFail e)).flags =
        rules.apply_rules name et sc ++ ["[SIMILARITY] Analysis failed: " ++ e] ++ r.flags) ∧
    ("[SIMILARITY] Risk: " ++ pyUpperS "unknown" ++ ". " ++
      "Could not parse similarity analysis." ++ " " ++ "Review similar names manually." =
      "[SIMILARITY] Risk: UNKNOWN. Could not parse similarity analysis. Review similar names manually.") ∧
    (orch._run_state job name et sc r lo).availability = r.availability ∧
    (orch._run_state job name et sc r lo).confidence = r.confidence ∧
    (orch._run_state job name et sc r lo).notes = r.notes := by
  intro job name et sc r lo names e
  refine ⟨rfl, ?_, by decide, rfl, rfl, rfl⟩
  intro h
  constructor
  · simp only [orch._run_state]
    rw [if_pos h]
    rfl
  · simp only [orch._run_state]
    rw [if_pos h]
    rfl

/-- Witness for C7: a concrete similar result with one similar name, run
through the orchestrator with a malformed model reply, carries exactly the
degraded similarity flag. -/
theorem claim_C7_witness :
    (orch._run_state "job1" (strCodes "Acme") "LLC" "DE"
      { state_code := "DE", state_name := "Delaware", availability := "similar",
                            confidence := 0.77, similar_names := [strCodes "Acme Holdings"] }
      (llm.ModelReply.reply none)).flags =
      rules.apply_rules (strCodes "Acme") "LLC" "DE" ++
        ["[SIMILARITY] Risk: " ++ pyUpperS "unknown" ++ ". " ++
          "Could not parse similarity analysis." ++ " " ++ "Review similar names manually."] ++
        ({ state_code := "DE", state_name := "Delaware", availability := "similar",
                               confidence := 0.77, similar_names := [strCodes "Acme Holdings"] } : AdapterResult).flags :=
  ((claim_C7 "job1" (strCodes "Acme") "LLC" "DE"
    { state_code := "DE", state_name := "Delaware", availability := "similar",
                          confidence := 0.77, similar_names := [strCodes "Acme Holdings"] }
    (llm.ModelReply.reply none) [] "").2.1 ⟨rfl, by decide⟩).1

/-- Counterexample to C7 as stated: a network failure in the Sonnet call
sits outside the try block of analyze_similarity, so the exception escapes
the analyzer instead of producing a degraded assessment. -/
theorem claim_C7_counterexample :
    llm.analyze_similarity [strCodes "Acme Holdings"]
      (llm.ModelReply.netFail "APIConnectionError") =
      Except.error "APIConnectionError" := rfl

/-- C8: with gather collecting exceptions, a raised task removes only its
own row — every sibling's row is still persisted — and run_search itself
never raises, so the job always reaches complete; the error status arises
only from an orchestration-level fault outside the per-source tasks. -/
theorem claim_C8 : ∀ (ts₁ ts₂ : List orch.TaskOutcome) (e err : String),
    orch.run_search (ts₁ ++ orch.TaskOutcome.raised e :: ts₂) =
      Except.ok (orch.persisted_rows ts₁ ++ orch.persisted_rows ts₂) ∧
    orch.run_and_signal_status (orch.run_search (ts₁ ++ orch.TaskOutcome.raised e :: ts₂)) =
      orch.JobStatus.complete ∧
    (∀ ts : List orch.TaskOutcome, orch.run_search ts = Except.ok (orch.persisted_rows ts)) ∧
    (∀ ts : List orch.TaskOutcome,
      orch.run_and_signal_status (orch.run_search ts) = orch.JobStatus.complete) ∧
    orch.run_and_signal_status (Except.error err) = orch.JobStatus.error := by
  intro ts1 ts2 e err
  have h1 : orch.persisted_rows (ts1 ++ orch.TaskOutcome.raised e :: ts2) =
      orch.persisted_rows ts1 ++ orch.persisted_rows ts2 := by
    unfold orch.persisted_rows
    rw [List.filterMap_append]
    rfl
  refine ⟨?_, rfl, fun ts => rfl, fun ts => rfl, rfl⟩
  unfold orch.run_search
  rw [h1]

/-- Witness for C3: the timeout failure mode at a concrete name. -/
theorem claim_C3_witness :
    (CA.search false CA.FetchOutcome.timeout (strCodes "Acme")).availability = "error" ∧
    (CA.search false CA.FetchOutcome.timeout (strCodes "Acme")).confidence = 0.1 ∧
    (CA.search false CA.FetchOutcome.timeout (strCodes "Acme")).notes ≠ [] :=
  (claim_C3 (strCodes "Acme") (strCodes "RuntimeError") (strCodes "boom") 500
    CA.FetchOutcome.timeout).1

/-- Witness for C4: the missing-credential error path at a concrete name
carries the fixed confidence 0.1. -/
theorem claim_C4_witness :
    (CA.search false (CA.FetchOutcome.ok []) (strCodes "Acme")).confidence = 0.1 :=
  claim_C4.2.2.1 (strCodes "Acme") (CA.FetchOutcome.ok [])

/-- Witness for C6: the Delaware rule evaluation on the spec's test
vector, by the claim theorem. -/
theorem claim_C6_witness :
    rules.apply_rules (strCodes "Acme Bank Inc") "LLC" "DE" =
      ["[WARNING] Delaware requires approval from the Office of the State Bank Commissioner to use 'bank' or 'banking'.",
       "[WARNING] Suffix 'Inc.' / 'Corp.' is appropriate for Corporations, not LLCs."] :=
  claim_C6.2.2

/-- Witness for C8: three tasks, the middle one raising, still settle to a
complete job. -/
theorem claim_C8_witness :
    orch.run_and_signal_status (orch.run_search
      ([orch.TaskOutcome.ok
          { job_id := "j1", state_code := "DE", state_name := "Delaware",
                            availability := "available", confidence := 0.96,
                            similar_names := [], flags := [], raw_matches := [], notes := [] }] ++
        orch.TaskOutcome.raised "boom" ::
        [orch.TaskOutcome.ok
          { job_id := "j1", state_code := "CA", state_name := "California",
                            availability := "taken", confidence := 0.96,
                            similar_names := [], flags := [], raw_matches := [], notes := [] }])) =
      orch.JobStatus.complete :=
  (claim_C8
    [orch.TaskOutcome.ok
      { job_id := "j1", state_code := "DE", state_name := "Delaware",
                        availability := "available", confidence := 0.96,
                        similar_names := [], flags := [], raw_matches := [], notes := [] }]
    [orch.TaskOutcome.ok
      { job_id := "j1", state_code := "CA", state_name := "California",
                        availability := "taken", confidence := 0.96,
                        similar_names := [], flags := [], raw_matches := [], notes := [] }]
    "boom" "setup failure").2.1

/-- Witness for C9: the Delaware timeout branch at a concrete name. -/
theorem claim_C9_witness :
    (DE.search DE.SearchOutcome.timeout (strCodes "Acme")).availability = "error" ∧
    (DE.search DE.SearchOutcome.timeout (strCodes "Acme")).confidence = 0.1 ∧
    (DE.search DE.SearchOutcome.timeout (strCodes "Acme")).notes =
      strCodes "Search timed out after 90 seconds." :=
  claim_C9.2.2.2.2.2.1 (strCodes "Acme")

end ClearPath
